import Mathlib

/-!
Shallow embedding of `acdcontrol.cpp` (Apple Cinema Display brightness control).

The program is a command-line tool built around one `main` loop: it parses
positional arguments into an operation mode plus a list of device paths, and
then, for each path, opens the device, queries its identity, consults a static
device registry, and drives a HID feature-report transaction (get / set /
relative-adjust of the brightness usage value).

Conventions of the embedding:
  * C `int` values become `Int`; C bit operations on (possibly negative)
    two's-complement ints are rendered arithmetically: `x >> 16` (gcc
    arithmetic shift) is `Int.fdiv x 65536`, `x & 0xFF` is `x.emod 256`, and
    `x & 0xFFFF` is `x.emod 65536` — these agree with the two's-complement
    bitwise results on every integer.
  * The kernel/driver side of each `ioctl` is an oracle packed into a
    `Device` value: one field per directive kind, indexed by the number of
    prior calls of that kind on the same device, so the model is faithful to
    an arbitrary device response at every call site.
  * Each per-device iteration of `main`'s loop is `processDevice`; it yields
    the exact sequence of driver directives issued (`trace`), the externally
    visible output events (`outs`), and whether the iteration fell through to
    the end of the loop body, `continue`d early, or called `exit`.
-/

/-- Operation mode constant `GET` (source: `const int GET = 0`). -/
def GET : Nat := 0

/-- Operation mode constant `SET` (source: `const int SET = 1`). -/
def SET : Nat := 1

/-- Operation mode constant `DETECT` (source: `const int DETECT = 2`). -/
def DETECT : Nat := 2

/-- Operation mode constant `SETREL` (source: `const int SETREL = 3`). -/
def SETREL : Nat := 3

/-- Vendor id of Apple (source: `const int APPLE = 0x05ac`). -/
def APPLE : Nat := 0x05ac

/-- Vendor id of Samsung (source: `const int SAMSUNG = 0x0419`). -/
def SAMSUNG : Nat := 0x0419

/-- Product id `STUDIO_DISPLAY_15 = 0x9215`. -/
def STUDIO_DISPLAY_15 : Nat := 0x9215

/-- Product id `STUDIO_DISPLAY_17 = 0x9217`. -/
def STUDIO_DISPLAY_17 : Nat := 0x9217

/-- Product id `CINEMA_DISPLAY_23_OLD = 0x9218`. -/
def CINEMA_DISPLAY_23_OLD : Nat := 0x9218

/-- Product id `CINEMA_DISPLAY_20_OLD = 0x9219`. -/
def CINEMA_DISPLAY_20_OLD : Nat := 0x9219

/-- Product id `CINEMA_DISPLAY_24 = 0x921e`. -/
def CINEMA_DISPLAY_24 : Nat := 0x921e

/-- Product id `CINEMA_DISPLAY_30 = 0x9232`. -/
def CINEMA_DISPLAY_30 : Nat := 0x9232

/-- Product id `S1 = 0x8002` (Samsung SyncMaster). -/
def S1 : Nat := 0x8002

/-- Device identity record (source `struct DeviceId`): product, vendor and a
human readable description.  The comparison operator below ignores the
description, so a `std::set<DeviceId>` is keyed by the (vendor, product)
pair. -/
structure DeviceId where
  product : Nat
  vendor : Nat
  description : String
deriving DecidableEq, Repr

/-- Strict order on `DeviceId` (source `DeviceId::operator<`): by vendor,
then by product; the description does not participate. -/
def deviceIdLt (a b : DeviceId) : Bool :=
  decide (a.vendor < b.vendor) ||
    (a.vendor == b.vendor && decide (a.product < b.product))

/-- Ordered-set insertion as performed by `std::set<DeviceId>::insert`: keeps
the list sorted by `deviceIdLt` and is a no-op when an element with an
equivalent key (neither less nor greater) is already present. -/
def setInsert (d : DeviceId) : List DeviceId → List DeviceId
  | [] => [d]
  | e :: es =>
    if deviceIdLt d e then d :: e :: es
    else if deviceIdLt e d then e :: setInsert d es
    else e :: es

/-- The supported-device table built by `init_device_database` (source lines
523-547), as the sequence of `supportedDevices.insert` calls in source
order.  The two commented-out `*_NEW` entries of the source are omitted,
exactly as the compiler omits them. -/
def init_device_database : List DeviceId :=
  setInsert { product := S1, vendor := SAMSUNG,
              description := "Samsung SyncMaster 757NF" }
  (setInsert { product := CINEMA_DISPLAY_30, vendor := APPLE,
               description := "Apple Cinema HD Display 30\"" }
  (setInsert { product := CINEMA_DISPLAY_24, vendor := APPLE,
               description := "Apple Cinema Display 24\"" }
  (setInsert { product := CINEMA_DISPLAY_23_OLD, vendor := APPLE,
               description := "Apple Cinema Display 23\" (old)" }
  (setInsert { product := CINEMA_DISPLAY_20_OLD, vendor := APPLE,
               description := "Apple Cinema Display 20\" (old)" }
  (setInsert { product := STUDIO_DISPLAY_17, vendor := APPLE,
               description := "Apple Studio Display 17\"" }
  (setInsert { product := STUDIO_DISPLAY_15, vendor := APPLE,
               description := "Apple Studio Display 15\"" } []))))))

/-- Membership test of `std::set<DeviceId>::find` with the order above: an
element is found when it is neither less nor greater than the key. -/
def setFind (db : List DeviceId) (key : DeviceId) : Bool :=
  db.any fun e => !deviceIdLt e key && !deviceIdLt key e

/-- Raw device information delivered by `HIDIOCGDEVINFO`
(`struct hiddev_devinfo`): the raw vendor / product fields (signed 16-bit in
the kernel header, hence `Int` after integer promotion) and the application
collection count. -/
structure hiddev_devinfo where
  vendor : Int
  product : Int
  num_applications : Nat
deriving Repr

/-- Source `is_supported` (lines 106-112): mask the raw vendor and product
with `0xFFFF` (here `emod 65536`, the two's-complement equivalent) and look
the pair up in the device database with an empty description. -/
def is_supported (device_info : hiddev_devinfo) : Bool :=
  let product : Nat := (device_info.product.emod 65536).toNat
  let vendor : Nat := (device_info.vendor.emod 65536).toNat
  setFind init_device_database
    { product := product, vendor := vendor, description := "" }

/-- Source `number` (lines 99-103): a string *seems* to be a number when its
first character is a decimal digit, a plus or a minus; the empty string (its
first byte is the NUL terminator) does not. -/
def number (str : String) : Bool :=
  match str.data with
  | [] => false
  | c :: _ => decide ('0' ≤ c ∧ c ≤ '9') || c == '+' || c == '-'

/-- Whitespace predicate of C `isspace`, used by `atoi` when skipping the
leading blanks of its argument. -/
def isspace (c : Char) : Bool :=
  c == ' ' || c == '\t' || c == '\n' || c == '\x0b' || c == '\x0c' || c == '\r'

/-- Value of the longest leading run of decimal digits, accumulator style;
conversion stops at the first non-digit. -/
def digitsAcc : List Char → Int → Int
  | c :: cs, acc =>
    if decide ('0' ≤ c ∧ c ≤ '9') then
      digitsAcc cs (acc * 10 + ((c.toNat - '0'.toNat : Nat) : Int))
    else acc
  | [], acc => acc

/-- C `atoi`: skip leading whitespace, consume one optional sign, then the
longest run of digits; yields 0 when no digit follows. -/
def atoi (str : String) : Int :=
  match str.data.dropWhile isspace with
  | '-' :: rest => - digitsAcc rest 0
  | '+' :: rest => digitsAcc rest 0
  | cs => digitsAcc cs 0

/-- The positional-argument loop of `main` (source lines 381-394): every
argument that `number` accepts while the mode is not `DETECT` becomes the
brightness specifier — sign-prefixed arguments switch to `SETREL` and set
`amount`, the rest switch to `SET` and set `brightness` — and every other
argument is appended to the file list.  Returns
(mode, brightness, amount, files). -/
def parse_params : Nat → Int → Int → List String → List String →
    Nat × Int × Int × List String
  | mode, brightness, amount, files, [] => (mode, brightness, amount, files)
  | mode, brightness, amount, files, arg :: rest =>
    if !(mode == DETECT) && number arg then
      if arg.data.head? == some '+' || arg.data.head? == some '-' then
        parse_params SETREL brightness (atoi arg) files rest
      else
        parse_params SET (atoi arg) amount files rest
    else
      parse_params mode brightness amount (files ++ [arg]) rest

/-- One driver directive (ioctl) issued against an open device. -/
inductive Directive where
  | getVersion
  | getDevInfo
  | application (appl_num : Nat)
  | initReport
  | getUsage
  | getReport
  | setUsage (value : Int)
  | setReport
deriving DecidableEq, Repr

/-- Oracle for one candidate device: whether `open` succeeds, the
`HIDIOCGDEVINFO` answer, the `HIDIOCAPPLICATION` answer per application
index (`-1` encodes ioctl failure, as in the kernel interface), whether
`HIDIOCINITREPORT` succeeds, and the outcome of the n-th call (counted per
device) of each usage/report directive: `getUsage n = none` models a failing
`HIDIOCGUSAGE`, `some v` a success returning usage value `v`. -/
structure Device where
  openOk : Bool
  devinfo : hiddev_devinfo
  application : Nat → Int
  initOk : Bool
  getUsage : Nat → Option Int
  getReportOk : Nat → Bool
  setUsageOk : Nat → Bool
  setReportOk : Nat → Bool

/-- The application-scan loop of `is_usb_monitor` (source lines 146-153),
with explicit fuel equal to the number of remaining indices: probes
`application appl_num` and succeeds as soon as
`(application >> 16) & 0xFF == 0x80`, returning the list of issued
`HIDIOCAPPLICATION` probes (the loop exits early on the first hit) together
with the boolean result. -/
def monitor_scan (application : Nat → Int) : Nat → Nat → List Directive × Bool
  | _, 0 => ([], false)
  | appl_num, n + 1 =>
    if (Int.fdiv (application appl_num) 65536).emod 256 = 128 then
      ([Directive.application appl_num], true)
    else
      let r := monitor_scan application (appl_num + 1) n
      (Directive.application appl_num :: r.1, r.2)

/-- Source `is_usb_monitor` (lines 141-155): scan application indices
`0 .. num_applications - 1` for one whose usage page byte is `0x80`. -/
def is_usb_monitor (device_info : hiddev_devinfo) (application : Nat → Int) :
    Bool :=
  (monitor_scan application 0 device_info.num_applications).2

/-- Externally visible per-device output events, in emission order. -/
inductive Out where
  | openError
  | detectLine (supported : Bool)
  | unsupportedLine
  | notMonitor
  | fatalInit
  | usageError
  | reportError
  | brightnessOut (value : Int)
deriving DecidableEq, Repr

/-- How one iteration of the device loop ends: `cont full` reaches the next
candidate (`full` = the body ran to its last line, which clears the
`first_device` flag), `exitWith c` calls `exit(c)` and ends the whole
process. -/
inductive Outcome where
  | cont (full : Bool)
  | exitWith (code : Nat)
deriving DecidableEq, Repr

/-- Result of one iteration of the device loop: the driver directives issued
on this device in order, the output events, and the outcome. -/
structure DeviceStep where
  trace : List Directive
  outs : List Out
  outcome : Outcome
deriving DecidableEq, Repr

/-- One iteration of `main`'s device loop (source lines 410-517) for an open
attempt on `dev`, excluding the version-line bookkeeping (which depends on
the loop-carried `first_device` flag and is handled in `runLoop`).
Faithfully follows the source control flow: open failure `continue`s;
`DETECT` classifies and `continue`s; an unsupported device warns and, without
`force`, exits with code 2; a non-monitor device warns and `continue`s;
`HIDIOCINITREPORT` failure exits 1; then `SET` issues set-usage/set-report
with the caller's unmodified `brightness`, while `GET`/`SETREL` issue
get-usage/get-report, `SETREL` additionally clamping `value + amount` to
[0,255], setting it, and reading the device-confirmed value back; usage-call
failures exit 2 and report-call failures exit 3. -/
def processDevice (mode : Nat) (brightness amount : Int) (force : Bool)
    (dev : Device) : DeviceStep :=
  if !dev.openOk then
    { trace := [], outs := [Out.openError], outcome := Outcome.cont false }
  else if mode == DETECT then
    let scan := monitor_scan dev.application 0 dev.devinfo.num_applications
    { trace := Directive.getVersion :: Directive.getDevInfo :: scan.1,
      outs := if scan.2 then [Out.detectLine (is_supported dev.devinfo)] else [],
      outcome := Outcome.cont false }
  else if !is_supported dev.devinfo && !force then
    { trace := [Directive.getVersion, Directive.getDevInfo],
      outs := [Out.unsupportedLine],
      outcome := Outcome.exitWith 2 }
  else
    let warn : List Out :=
      if is_supported dev.devinfo then [] else [Out.unsupportedLine]
    let scan := monitor_scan dev.application 0 dev.devinfo.num_applications
    let base := Directive.getVersion :: Directive.getDevInfo :: scan.1
    if !scan.2 then
      { trace := base, outs := warn ++ [Out.notMonitor],
        outcome := Outcome.cont false }
    else if !dev.initOk then
      { trace := base ++ [Directive.initReport],
        outs := warn ++ [Out.fatalInit],
        outcome := Outcome.exitWith 1 }
    else if mode == SET then
      if !dev.setUsageOk 0 then
        { trace := base ++ [Directive.initReport, Directive.setUsage brightness],
          outs := warn ++ [Out.usageError],
          outcome := Outcome.exitWith 2 }
      else if !dev.setReportOk 0 then
        { trace := base ++ [Directive.initReport, Directive.setUsage brightness,
            Directive.setReport],
          outs := warn ++ [Out.reportError],
          outcome := Outcome.exitWith 3 }
      else
        { trace := base ++ [Directive.initReport, Directive.setUsage brightness,
            Directive.setReport],
          outs := warn,
          outcome := Outcome.cont true }
    else
      match dev.getUsage 0 with
      | none =>
        { trace := base ++ [Directive.initReport, Directive.getUsage],
          outs := warn ++ [Out.usageError],
          outcome := Outcome.exitWith 2 }
      | some v0 =>
        if !dev.getReportOk 0 then
          { trace := base ++ [Directive.initReport, Directive.getUsage,
              Directive.getReport],
            outs := warn ++ [Out.reportError],
            outcome := Outcome.exitWith 3 }
        else if mode == SETREL then
          let b2 : Int := min 255 (max 0 (v0 + amount))
          if !dev.setUsageOk 0 then
            { trace := base ++ [Directive.initReport, Directive.getUsage,
                Directive.getReport, Directive.setUsage b2],
              outs := warn ++ [Out.usageError],
              outcome := Outcome.exitWith 2 }
          else if !dev.setReportOk 0 then
            { trace := base ++ [Directive.initReport, Directive.getUsage,
                Directive.getReport, Directive.setUsage b2, Directive.setReport],
              outs := warn ++ [Out.reportError],
              outcome := Outcome.exitWith 3 }
          else
            match dev.getUsage 1 with
            | none =>
              { trace := base ++ [Directive.initReport, Directive.getUsage,
                  Directive.getReport, Directive.setUsage b2, Directive.setReport,
                  Directive.getUsage],
                outs := warn ++ [Out.usageError],
                outcome := Outcome.exitWith 2 }
            | some v1 =>
              if !dev.getReportOk 1 then
                { trace := base ++ [Directive.initReport, Directive.getUsage,
                    Directive.getReport, Directive.setUsage b2, Directive.setReport,
                    Directive.getUsage, Directive.getReport],
                  outs := warn ++ [Out.reportError],
                  outcome := Outcome.exitWith 3 }
              else
                { trace := base ++ [Directive.initReport, Directive.getUsage,
                    Directive.getReport, Directive.setUsage b2, Directive.setReport,
                    Directive.getUsage, Directive.getReport],
                  outs := warn ++ [Out.brightnessOut v1],
                  outcome := Outcome.cont true }
        else
          { trace := base ++ [Directive.initReport, Directive.getUsage,
              Directive.getReport],
            outs := warn ++ [Out.brightnessOut v0],
            outcome := Outcome.cont true }

/-- Result of a whole run of the device loop: the steps of the devices that
were actually processed (the run stops at the first `exit`), whether the
driver version line was printed for each of them, and the process exit code
(0 when the loop runs to completion, since `main` ends without an explicit
return). -/
structure RunResult where
  steps : List DeviceStep
  vprints : List Bool
  exitCode : Nat
deriving DecidableEq, Repr

/-- The device loop of `main` (source lines 408-518), threading the
`first_device` flag: the version line is printed after a successful open
when `!silent && first_device`, and `first_device` is cleared only at the
very end of a fully processed loop body (source line 517), which the
`continue` paths skip. -/
def runLoop (mode : Nat) (brightness amount : Int) (force silent : Bool) :
    Bool → List Device → RunResult
  | _, [] => { steps := [], vprints := [], exitCode := 0 }
  | first, dev :: rest =>
    let st := processDevice mode brightness amount force dev
    let vp := !silent && first && dev.openOk
    match st.outcome with
    | Outcome.exitWith c => { steps := [st], vprints := [vp], exitCode := c }
    | Outcome.cont full =>
      let r := runLoop mode brightness amount force silent (first && !full) rest
      { steps := st :: r.steps, vprints := vp :: r.vprints,
        exitCode := r.exitCode }

/-- The core of `main` after option processing: parse the positional
arguments (starting in `DETECT` or `GET` mode according to the `-d` flag),
exit 1 with the help text when no device path remains, and otherwise run the
device loop with one oracle per file, the `first_device` flag initially
true. -/
def acdmain (detect force silent : Bool) (args : List String)
    (devs : List Device) : RunResult :=
  let p := parse_params (if detect then DETECT else GET) 0 0 [] args
  if p.2.2.2.isEmpty then { steps := [], vprints := [], exitCode := 1 }
  else runLoop p.1 p.2.1 p.2.2.1 force silent true (devs.take p.2.2.2.length)

/-- Test fixture: the identity of an Apple Cinema Display 20" (old), which is
in the device database, exposing one application collection. -/
def okDevInfo : hiddev_devinfo :=
  { vendor := 0x05ac, product := 0x9219, num_applications := 1 }

/-- Test fixture: an identity absent from the device database. -/
def unsupDevInfo : hiddev_devinfo :=
  { vendor := 0x1234, product := 0x0001, num_applications := 1 }

/-- Test fixture: a fully cooperative supported monitor whose application 0
carries the monitor usage page, whose first get-usage answers 250 and whose
later get-usage calls answer 255. -/
def okDevice : Device :=
  { openOk := true
    devinfo := okDevInfo
    application := fun _ => 0x800000
    initOk := true
    getUsage := fun n => if n == 0 then some 250 else some 255
    getReportOk := fun _ => true
    setUsageOk := fun _ => true
    setReportOk := fun _ => true }

/-- Test fixture: a candidate path whose `open` fails. -/
def closedDevice : Device := { okDevice with openOk := false }

/-- Test fixture: an openable device with an unregistered identity. -/
def unsupDevice : Device := { okDevice with devinfo := unsupDevInfo }

/-- Test fixture: an openable supported device none of whose applications
carries the monitor usage page. -/
def nonMonDevice : Device := { okDevice with application := fun _ => 0 }

/-- Test fixture: a monitor whose `HIDIOCINITREPORT` fails. -/
def initFailDevice : Device := { okDevice with initOk := false }

/-- Test fixture: a monitor whose set-usage calls fail. -/
def setUsageFailDevice : Device := { okDevice with setUsageOk := fun _ => false }

/-- Test fixture: a monitor whose set-report calls fail. -/
def setReportFailDevice : Device := { okDevice with setReportOk := fun _ => false }

/-- Test fixture: a monitor whose get-usage calls fail. -/
def getUsageFailDevice : Device := { okDevice with getUsage := fun _ => none }

/-- Test fixture: a monitor whose get-report calls fail. -/
def getReportFailDevice : Device := { okDevice with getReportOk := fun _ => false }

/-- Test fixture: an openable device with an unregistered identity and no
monitor application. -/
def unsupNonMonDevice : Device :=
  { okDevice with devinfo := unsupDevInfo, application := fun _ => 0 }

/-- Test fixture: an openable monitor with an unregistered identity whose
`HIDIOCINITREPORT` fails. -/
def unsupInitFailDevice : Device :=
  { okDevice with devinfo := unsupDevInfo, initOk := false }

/-- Test fixture: an application table whose index-0 query fails (ioctl
returns `-1`) while index 1 carries the monitor usage page. -/
def probeApp : Nat → Int := fun i => if i == 0 then -1 else 0x800000

/-- Test fixture: a supported identity exposing two application collections,
to be probed with `probeApp`. -/
def probeDevInfo : hiddev_devinfo :=
  { vendor := 0x05ac, product := 0x9219, num_applications := 2 }

/-! ## Helper lemmas -/

/-- Every directive issued by the application-scan loop is an
`HIDIOCAPPLICATION` probe. -/
theorem monitor_scan_probes (application : Nat → Int) :
    ∀ (n s : Nat) (x : Directive), x ∈ (monitor_scan application s n).1 →
      ∃ j, x = Directive.application j := by
  intro n
  induction n with
  | zero => intro s x hx; simp [monitor_scan] at hx
  | succ m ih =>
    intro s x hx
    by_cases h : (Int.fdiv (application s) 65536).emod 256 = 128
    · simp [monitor_scan, h] at hx
      exact ⟨s, hx⟩
    · simp [monitor_scan, h] at hx
      rcases hx with hx | hx
      · exact ⟨s, hx⟩
      · exact ih (s + 1) x hx

/-- A set-usage directive never occurs among the application probes. -/
theorem setUsage_not_in_probes (application : Nat → Int) (n s : Nat) (v : Int) :
    Directive.setUsage v ∉ (monitor_scan application s n).1 := by
  intro h
  rcases monitor_scan_probes application n s _ h with ⟨j, hj⟩
  exact absurd hj (by simp)

/-- The scan starting at `s` with `n` indices of fuel succeeds exactly when
one of the indices `s .. s+n-1` carries the monitor usage page. -/
theorem monitor_scan_true_iff (application : Nat → Int) :
    ∀ (n s : Nat), (monitor_scan application s n).2 = true ↔
      ∃ k, k < n ∧ (Int.fdiv (application (s + k)) 65536).emod 256 = 128 := by
  intro n
  induction n with
  | zero => intro s; simp [monitor_scan]
  | succ m ih =>
    intro s
    by_cases h : (Int.fdiv (application s) 65536).emod 256 = 128
    · simp only [monitor_scan, h, if_pos]
      constructor
      · intro _; exact ⟨0, by omega, by simpa using h⟩
      · intro _; trivial
    · simp only [monitor_scan, h, if_neg, not_false_iff]
      rw [show (monitor_scan application (s + 1) m).2 =
            (Directive.application s :: (monitor_scan application (s + 1) m).1,
              (monitor_scan application (s + 1) m).2).2 from rfl]
      rw [ih (s + 1)]
      constructor
      · rintro ⟨k, hk, hm⟩
        exact ⟨k + 1, by omega, by rw [show s + (k + 1) = s + 1 + k by omega]; exact hm⟩
      · rintro ⟨k, hk, hm⟩
        cases k with
        | zero => exact absurd (by simpa using hm) h
        | succ k =>
          exact ⟨k, by omega, by rw [show s + 1 + k = s + (k + 1) by omega]; exact hm⟩

/-- Equivalence under the `DeviceId` strict order is exact equality of the
(vendor, product) key. -/
theorem deviceIdLt_equiv_iff (e k : DeviceId) :
    (!deviceIdLt e k && !deviceIdLt k e) = true ↔
      e.vendor = k.vendor ∧ e.product = k.product := by
  simp only [deviceIdLt, Bool.and_eq_true, Bool.not_eq_true', Bool.or_eq_false_iff,
    decide_eq_false_iff_not, Bool.and_eq_false_iff, beq_eq_false_iff_ne, ne_eq,
    decide_eq_true_eq]
  omega

/-- `std::set::find`-style lookup succeeds exactly when the (vendor, product)
key occurs in the table. -/
theorem setFind_iff (db : List DeviceId) (key : DeviceId) :
    setFind db key = true ↔
      (key.vendor, key.product) ∈ db.map fun e => (e.vendor, e.product) := by
  simp only [setFind, List.any_eq_true, List.mem_map]
  constructor
  · rintro ⟨e, he, h⟩
    rcases (deviceIdLt_equiv_iff e key).mp h with ⟨h1, h2⟩
    exact ⟨e, he, by rw [h1, h2]⟩
  · rintro ⟨e, he, h⟩
    refine ⟨e, he, (deviceIdLt_equiv_iff e key).mpr ?_⟩
    exact ⟨congrArg Prod.fst h, congrArg Prod.snd h⟩

/-! ## Claims -/

/-- C6: monitor classification returns true exactly when some application
index `i < num_applications` yields a value whose bits 16-23 (arithmetic
shift right by 16, then low byte) equal `0x80`; and an index whose underlying
ioctl fails (returns `-1`) never matches — so a failed query is skipped and
cannot make the classification itself fail (it always returns a boolean). -/
theorem is_usb_monitor_characterization (device_info : hiddev_devinfo)
    (application : Nat → Int) :
    (is_usb_monitor device_info application = true ↔
      ∃ i, i < device_info.num_applications ∧
        (Int.fdiv (application i) 65536).emod 256 = 128) ∧
    (∀ i, application i = -1 →
      ¬ (Int.fdiv (application i) 65536).emod 256 = 128) := by
  constructor
  · rw [is_usb_monitor, monitor_scan_true_iff]
    simp
  · intro i hi
    rw [hi]
    decide

/-- C6 witness: on a device with two applications whose index-0 query fails
(`-1`) and whose index-1 usage page is the monitor page, classification
succeeds, and the failed index does not match. -/
theorem is_usb_monitor_characterization_witness :
    is_usb_monitor probeDevInfo probeApp = true ∧
      ¬ (Int.fdiv (probeApp 0) 65536).emod 256 = 128 := by
  have h := is_usb_monitor_characterization probeDevInfo probeApp
  exact ⟨h.1.mpr ⟨1, by decide, by decide⟩, h.2 0 (by decide)⟩

/-- C9: `is_supported` masks the raw vendor and product fields to 16 bits
(two's-complement `& 0xFFFF`, i.e. `emod 65536`) and looks the pair up by
exact (vendorId, productId) match in the startup-built registry, whose key
list contains no duplicates.  Being a pure function of `device_info`, it
trivially returns the same result on every call for a fixed identity. -/
theorem is_supported_characterization (device_info : hiddev_devinfo) :
    (is_supported device_info = true ↔
      ((device_info.vendor.emod 65536).toNat,
        (device_info.product.emod 65536).toNat) ∈
        init_device_database.map fun e => (e.vendor, e.product)) ∧
    (init_device_database.map fun e => (e.vendor, e.product)).Nodup := by
  constructor
  · rw [is_supported, setFind_iff]
  · decide

/-- C9 witness: the registered Apple identity (0x05ac, 0x9219) is supported,
via the characterization applied at `okDevInfo`. -/
theorem is_supported_characterization_witness :
    is_supported okDevInfo = true ∧
      (init_device_database.map fun e => (e.vendor, e.product)).Nodup := by
  have h := is_supported_characterization okDevInfo
  exact ⟨h.1.mpr (by decide), h.2⟩

/-- C1: in `SETREL` mode, once the device is reached (open, supported or
forced, classified as a monitor, init succeeds) and every transaction step
succeeds, the engine first reads the current value `c`, writes
`clamp(c + amount, 0, 255)` via set-usage/set-report, performs a second
get-usage/get-report, and the reported brightness is the readback value `r`
of the second get (the device-confirmed value), not the computed one. -/
theorem setrel_transaction (brightness amount : Int) (force : Bool)
    (dev : Device) (c r : Int)
    (hopen : dev.openOk = true)
    (hsup : is_supported dev.devinfo = true ∨ force = true)
    (hmon : is_usb_monitor dev.devinfo dev.application = true)
    (hinit : dev.initOk = true)
    (hg0 : dev.getUsage 0 = some c)
    (hc0 : 0 ≤ c) (hc1 : c ≤ 255)
    (hgr0 : dev.getReportOk 0 = true)
    (hsu : dev.setUsageOk 0 = true)
    (hsr : dev.setReportOk 0 = true)
    (hg1 : dev.getUsage 1 = some r)
    (hgr1 : dev.getReportOk 1 = true) :
    (processDevice SETREL brightness amount force dev).trace =
      Directive.getVersion :: Directive.getDevInfo ::
        ((monitor_scan dev.application 0 dev.devinfo.num_applications).1 ++
          [Directive.initReport, Directive.getUsage, Directive.getReport,
            Directive.setUsage (min 255 (max 0 (c + amount))),
            Directive.setReport, Directive.getUsage, Directive.getReport]) ∧
    (processDevice SETREL brightness amount force dev).outs.getLast? =
      some (Out.brightnessOut r) ∧
    (processDevice SETREL brightness amount force dev).outcome =
      Outcome.cont true := by
  have hscan : (monitor_scan dev.application 0 dev.devinfo.num_applications).2
      = true := hmon
  rcases hsup with hs | hf
  · simp [processDevice, SETREL, DETECT, SET, hopen, hs, hscan, hinit, hg0,
      hgr0, hsu, hsr, hg1, hgr1]
  · by_cases hs : is_supported dev.devinfo = true
    · simp [processDevice, SETREL, DETECT, SET, hopen, hs, hf, hscan, hinit,
        hg0, hgr0, hsu, hsr, hg1, hgr1]
    · rw [Bool.not_eq_true] at hs
      simp [processDevice, SETREL, DETECT, SET, hopen, hs, hf, hscan, hinit,
        hg0, hgr0, hsu, hsr, hg1, hgr1]

/-- C1 witness: the cooperative fixture device at current value 250 with
delta +50 gets the clamped value 255 written and reports the readback 255. -/
theorem setrel_transaction_witness :
    (processDevice SETREL 0 50 false okDevice).trace =
      Directive.getVersion :: Directive.getDevInfo ::
        ((monitor_scan okDevice.application 0
            okDevice.devinfo.num_applications).1 ++
          [Directive.initReport, Directive.getUsage, Directive.getReport,
            Directive.setUsage 255, Directive.setReport, Directive.getUsage,
            Directive.getReport]) ∧
    (processDevice SETREL 0 50 false okDevice).outs.getLast? =
      some (Out.brightnessOut 255) ∧
    (processDevice SETREL 0 50 false okDevice).outcome = Outcome.cont true := by
  have h := setrel_transaction 0 50 false okDevice 250 255 rfl
    (Or.inl (by decide)) (by decide) rfl rfl (by decide) (by decide) rfl rfl
    rfl rfl rfl
  rw [show min 255 (max 0 ((250 : Int) + 50)) = 255 by decide] at h
  exact h

/-- C2 counterexample: with caller-supplied brightness argument "300", the
absolute-Set path sends the unclamped value 300 — outside [0,255] — to the
device, refuting the claim that every write lies in [0,255] in every mode. -/
theorem set_mode_sends_unclamped_value :
    (acdmain false false false ["/dev/hiddev0", "300"] [okDevice]).steps.map
        (fun s => s.trace) =
      [[Directive.getVersion, Directive.getDevInfo, Directive.application 0,
        Directive.initReport, Directive.setUsage 300, Directive.setReport]] ∧
    ¬ ((300 : Int) ≤ 255) := by
  constructor
  · rfl
  · decide

/-- C2 amended: the in-range invariant holds for the relative-adjust
operation — every set-usage directive issued in `SETREL` mode carries a value
in [0,255] even when the pre-clamp `current + delta` does not — while in
absolute Set mode the caller-supplied value is passed through unclamped
(see the counterexample). -/
theorem setrel_setusage_in_range (brightness amount : Int) (force : Bool)
    (dev : Device) (v : Int)
    (hv : Directive.setUsage v ∈
      (processDevice SETREL brightness amount force dev).trace) :
    0 ≤ v ∧ v ≤ 255 := by
  by_cases ho : dev.openOk = true
  swap
  · rw [Bool.not_eq_true] at ho
    simp [processDevice, ho] at hv
  cases hs : is_supported dev.devinfo <;> cases hf : force
  · simp [processDevice, SETREL, DETECT, ho, hs, hf] at hv
  all_goals
    by_cases hm : (monitor_scan dev.application 0
        dev.devinfo.num_applications).2 = true
    swap
    · rw [Bool.not_eq_true] at hm
      simp [processDevice, SETREL, DETECT, ho, hs, hf, hm,
        setUsage_not_in_probes] at hv
    all_goals
      by_cases hi : dev.initOk = true
      swap
      · rw [Bool.not_eq_true] at hi
        simp [processDevice, SETREL, DETECT, ho, hs, hf, hm, hi,
          setUsage_not_in_probes] at hv
      all_goals
        rcases hg0 : dev.getUsage 0 with _ | v0
        · simp [processDevice, SETREL, DETECT, SET, ho, hs, hf, hm, hi, hg0,
            setUsage_not_in_probes] at hv
        all_goals
          by_cases hgr0 : dev.getReportOk 0 = true
          swap
          · rw [Bool.not_eq_true] at hgr0
            simp [processDevice, SETREL, DETECT, SET, ho, hs, hf, hm, hi,
              hg0, hgr0, setUsage_not_in_probes] at hv
          all_goals
            by_cases hsu0 : dev.setUsageOk 0 = true
            swap
            · rw [Bool.not_eq_true] at hsu0
              simp [processDevice, SETREL, DETECT, SET, ho, hs, hf, hm, hi,
                hg0, hgr0, hsu0, setUsage_not_in_probes] at hv
              subst hv
              exact ⟨le_min (by norm_num) (le_max_left _ _), min_le_left _ _⟩
            all_goals
              by_cases hsr0 : dev.setReportOk 0 = true
              swap
              · rw [Bool.not_eq_true] at hsr0
                simp [processDevice, SETREL, DETECT, SET, ho, hs, hf, hm, hi,
                  hg0, hgr0, hsu0, hsr0, setUsage_not_in_probes] at hv
                subst hv
                exact ⟨le_min (by norm_num) (le_max_left _ _), min_le_left _ _⟩
              all_goals
                rcases hg1 : dev.getUsage 1 with _ | v1
                · simp [processDevice, SETREL, DETECT, SET, ho, hs, hf, hm,
                    hi, hg0, hgr0, hsu0, hsr0, hg1,
                    setUsage_not_in_probes] at hv
                  subst hv
                  exact ⟨le_min (by norm_num) (le_max_left _ _),
                    min_le_left _ _⟩
                all_goals
                  by_cases hgr1 : dev.getReportOk 1 = true
                  swap
                  · rw [Bool.not_eq_true] at hgr1
                    simp [processDevice, SETREL, DETECT, SET, ho, hs, hf, hm,
                      hi, hg0, hgr0, hsu0, hsr0, hg1, hgr1,
                      setUsage_not_in_probes] at hv
                    subst hv
                    exact ⟨le_min (by norm_num) (le_max_left _ _),
                      min_le_left _ _⟩
                  all_goals
                    simp [processDevice, SETREL, DETECT, SET, ho, hs, hf, hm,
                      hi, hg0, hgr0, hsu0, hsr0, hg1, hgr1,
                      setUsage_not_in_probes] at hv
                    subst hv
                    exact ⟨le_min (by norm_num) (le_max_left _ _),
                      min_le_left _ _⟩

/-- C2 amended witness: with current value 250 and delta -300, the written
value is clamped to 0, which the amended invariant confirms to lie in
[0,255]. -/
theorem setrel_setusage_in_range_witness :
    Directive.setUsage 0 ∈
        (processDevice SETREL 0 (-300) false okDevice).trace ∧
      (0 : Int) ≤ 0 ∧ (0 : Int) ≤ 255 := by
  have hv : Directive.setUsage 0 ∈
      (processDevice SETREL 0 (-300) false okDevice).trace := by decide
  exact ⟨hv, setrel_setusage_in_range 0 (-300) false okDevice 0 hv⟩

/-- When the device is supported or the force flag is set, the
unsupported-abort gate does not fire. -/
theorem support_gate (dev : Device) (force : Bool)
    (hsup : is_supported dev.devinfo = true ∨ force = true) :
    (!is_supported dev.devinfo && !force) = false := by
  rcases hsup with h | h <;> simp [h]

/-- C3: the exit-code scheme.  (1) no device path after argument parsing
exits 1; (2) when every processed device ends in a `continue` (even a
non-fatal open failure or non-monitor skip), the run completes with exit
code 0, since `main` falls off its end; (3) an `HIDIOCINITREPORT` failure on
a reached device exits 1; (4) an unsupported device without force exits 2;
(5) a set-usage failure exits 2; (6) a get-usage failure exits 2; (7) a
set-report failure exits 3; (8) a get-report failure exits 3. -/
theorem exit_code_scheme :
    (∀ (detect force silent : Bool) (args : List String) (devs : List Device),
      (parse_params (if detect then DETECT else GET) 0 0 [] args).2.2.2 = [] →
      (acdmain detect force silent args devs).exitCode = 1) ∧
    (∀ (mode : Nat) (brightness amount : Int) (force silent : Bool)
        (devs : List Device) (first : Bool),
      (∀ dev ∈ devs, ∃ f,
        (processDevice mode brightness amount force dev).outcome =
          Outcome.cont f) →
      (runLoop mode brightness amount force silent first devs).exitCode = 0) ∧
    (∀ (mode : Nat) (brightness amount : Int) (force : Bool) (dev : Device),
      mode ≠ DETECT → dev.openOk = true →
      (is_supported dev.devinfo = true ∨ force = true) →
      is_usb_monitor dev.devinfo dev.application = true →
      dev.initOk = false →
      (processDevice mode brightness amount force dev).outcome =
        Outcome.exitWith 1) ∧
    (∀ (mode : Nat) (brightness amount : Int) (dev : Device),
      mode ≠ DETECT → dev.openOk = true →
      is_supported dev.devinfo = false →
      (processDevice mode brightness amount false dev).outcome =
        Outcome.exitWith 2) ∧
    (∀ (brightness amount : Int) (force : Bool) (dev : Device),
      dev.openOk = true → (is_supported dev.devinfo = true ∨ force = true) →
      is_usb_monitor dev.devinfo dev.application = true →
      dev.initOk = true → dev.setUsageOk 0 = false →
      (processDevice SET brightness amount force dev).outcome =
        Outcome.exitWith 2) ∧
    (∀ (brightness amount : Int) (force : Bool) (dev : Device),
      dev.openOk = true → (is_supported dev.devinfo = true ∨ force = true) →
      is_usb_monitor dev.devinfo dev.application = true →
      dev.initOk = true → dev.getUsage 0 = none →
      (processDevice GET brightness amount force dev).outcome =
        Outcome.exitWith 2) ∧
    (∀ (brightness amount : Int) (force : Bool) (dev : Device),
      dev.openOk = true → (is_supported dev.devinfo = true ∨ force = true) →
      is_usb_monitor dev.devinfo dev.application = true →
      dev.initOk = true → dev.setUsageOk 0 = true →
      dev.setReportOk 0 = false →
      (processDevice SET brightness amount force dev).outcome =
        Outcome.exitWith 3) ∧
    (∀ (brightness amount : Int) (force : Bool) (dev : Device) (v0 : Int),
      dev.openOk = true → (is_supported dev.devinfo = true ∨ force = true) →
      is_usb_monitor dev.devinfo dev.application = true →
      dev.initOk = true → dev.getUsage 0 = some v0 →
      dev.getReportOk 0 = false →
      (processDevice GET brightness amount force dev).outcome =
        Outcome.exitWith 3) := by
  refine ⟨?_, ?_, ?_, ?_, ?_, ?_, ?_, ?_⟩
  · intro detect force silent args devs h
    simp [acdmain, h]
  · intro mode b a force silent devs
    induction devs with
    | nil => intro first h; rfl
    | cons d ds ih =>
      intro first h
      obtain ⟨f, hf⟩ := h d (List.mem_cons_self d ds)
      simp only [runLoop, hf]
      exact ih (first && !f) fun dev hm => h dev (List.mem_cons_of_mem d hm)
  · intro mode b a force dev hmode ho hsup hmon hinit
    have hg : (mode == DETECT) = false := beq_eq_false_iff_ne.mpr hmode
    have hscan : (monitor_scan dev.application 0
        dev.devinfo.num_applications).2 = true := hmon
    simp [processDevice, ho, hg, support_gate dev force hsup, hscan, hinit]
  · intro mode b a dev hmode ho hs
    have hg : (mode == DETECT) = false := beq_eq_false_iff_ne.mpr hmode
    simp [processDevice, ho, hg, hs]
  · intro b a force dev ho hsup hmon hinit hsu
    have hscan : (monitor_scan dev.application 0
        dev.devinfo.num_applications).2 = true := hmon
    simp [processDevice, SET, DETECT, ho, support_gate dev force hsup, hscan,
      hinit, hsu]
  · intro b a force dev ho hsup hmon hinit hg0
    have hscan : (monitor_scan dev.application 0
        dev.devinfo.num_applications).2 = true := hmon
    simp [processDevice, GET, SET, DETECT, ho, support_gate dev force hsup,
      hscan, hinit, hg0]
  · intro b a force dev ho hsup hmon hinit hsu hsr
    have hscan : (monitor_scan dev.application 0
        dev.devinfo.num_applications).2 = true := hmon
    simp [processDevice, SET, DETECT, ho, support_gate dev force hsup, hscan,
      hinit, hsu, hsr]
  · intro b a force dev v0 ho hsup hmon hinit hg0 hgr0
    have hscan : (monitor_scan dev.application 0
        dev.devinfo.num_applications).2 = true := hmon
    simp [processDevice, GET, SET, DETECT, ho, support_gate dev force hsup,
      hscan, hinit, hg0, hgr0]

/-- C3 witness: each exit-code path evaluated on a concrete fixture: empty
candidate list exits 1; an open failure still completes with 0; init failure
exits 1; unsupported-without-force exits 2; set-usage and get-usage failures
exit 2; set-report and get-report failures exit 3. -/
theorem exit_code_scheme_witness :
    (acdmain false false false ([] : List String) []).exitCode = 1 ∧
    (runLoop GET 0 0 false false true [closedDevice]).exitCode = 0 ∧
    (processDevice GET 0 0 false initFailDevice).outcome =
      Outcome.exitWith 1 ∧
    (processDevice GET 0 0 false unsupDevice).outcome = Outcome.exitWith 2 ∧
    (processDevice SET 300 0 false setUsageFailDevice).outcome =
      Outcome.exitWith 2 ∧
    (processDevice GET 0 0 false getUsageFailDevice).outcome =
      Outcome.exitWith 2 ∧
    (processDevice SET 300 0 false setReportFailDevice).outcome =
      Outcome.exitWith 3 ∧
    (processDevice GET 0 0 false getReportFailDevice).outcome =
      Outcome.exitWith 3 := by
  have h := exit_code_scheme
  refine ⟨h.1 false false false [] [] rfl, ?_, ?_, ?_, ?_, ?_, ?_, ?_⟩
  · refine h.2.1 GET 0 0 false false [closedDevice] true ?_
    intro dev hm
    rw [List.mem_singleton] at hm
    subst hm
    exact ⟨false, by decide⟩
  · exact h.2.2.1 GET 0 0 false initFailDevice (by decide) rfl
      (Or.inl (by decide)) (by decide) rfl
  · exact h.2.2.2.1 GET 0 0 unsupDevice (by decide) rfl (by decide)
  · exact h.2.2.2.2.1 300 0 false setUsageFailDevice rfl (Or.inl (by decide))
      (by decide) rfl rfl
  · exact h.2.2.2.2.2.1 0 0 false getUsageFailDevice rfl (Or.inl (by decide))
      (by decide) rfl rfl
  · exact h.2.2.2.2.2.2.1 300 0 false setReportFailDevice rfl
      (Or.inl (by decide)) (by decide) rfl rfl rfl
  · exact h.2.2.2.2.2.2.2 0 0 false getReportFailDevice 250 rfl
      (Or.inl (by decide)) (by decide) rfl rfl rfl

/-- In detect mode one loop iteration issues at most the version query, the
device-info query and the application probes, and always continues to the
next candidate without reaching the end-of-body bookkeeping. -/
theorem processDevice_detect (brightness amount : Int) (force : Bool)
    (dev : Device) :
    ((processDevice DETECT brightness amount force dev).trace = [] ∨
      (processDevice DETECT brightness amount force dev).trace =
        Directive.getVersion :: Directive.getDevInfo ::
          (monitor_scan dev.application 0 dev.devinfo.num_applications).1) ∧
    (processDevice DETECT brightness amount force dev).outcome =
      Outcome.cont false := by
  by_cases ho : dev.openOk = true
  · simp [processDevice, DETECT, ho]
  · rw [Bool.not_eq_true] at ho
    simp [processDevice, ho]

/-- C4: in DetectOnly mode, for every candidate and every device identity,
no step of the run ever issues a write-class directive — no init-report, no
set-usage, no set-report — and every iteration continues to the next
candidate (probing identity and classification only). -/
theorem detect_mode_never_writes (brightness amount : Int)
    (force silent first : Bool) (devs : List Device) (st : DeviceStep)
    (hst : st ∈
      (runLoop DETECT brightness amount force silent first devs).steps) :
    (∀ x ∈ st.trace, x ≠ Directive.initReport ∧
      (∀ v, x ≠ Directive.setUsage v) ∧ x ≠ Directive.setReport) ∧
    st.outcome = Outcome.cont false := by
  induction devs generalizing first with
  | nil => simp [runLoop] at hst
  | cons d ds ih =>
    have hd := processDevice_detect brightness amount force d
    simp only [runLoop, hd.2] at hst
    simp only [List.mem_cons] at hst
    rcases hst with rfl | hst
    · refine ⟨?_, hd.2⟩
      intro x hx
      rcases hd.1 with h0 | h1
      · rw [h0] at hx
        simp at hx
      · rw [h1] at hx
        simp only [List.mem_cons] at hx
        rcases hx with rfl | rfl | hx
        · simp
        · simp
        · obtain ⟨j, rfl⟩ := monitor_scan_probes d.application _ _ x hx
          simp
    · exact ih (first && !false) hst

/-- C4 witness: the single step of a detect run over the supported fixture
issues no write-class directive and continues. -/
theorem detect_mode_never_writes_witness :
    (∀ x ∈ (processDevice DETECT 0 0 false okDevice).trace,
      x ≠ Directive.initReport ∧ (∀ v, x ≠ Directive.setUsage v) ∧
        x ≠ Directive.setReport) ∧
    (processDevice DETECT 0 0 false okDevice).outcome =
      Outcome.cont false :=
  detect_mode_never_writes 0 0 false false true [okDevice]
    (processDevice DETECT 0 0 false okDevice) (by decide)

/-- C5: when a candidate's identity is not in the registry and force is not
set (and the mode performs a transaction), the whole process exits with the
distinct code 2 right after the identity query — the only directives ever
issued on it are the version and device-info queries, no transaction-engine
call, and no later candidate is processed; with force set, processing
proceeds to the monitor classification exactly as for a supported device:
a non-monitor is skipped with a continue after the probes, and a monitor
proceeds into the transaction (e.g. a failing init-report then exits 1,
past the classification). -/
theorem unsupported_without_force_policy :
    (∀ (mode : Nat) (brightness amount : Int) (silent first : Bool)
        (dev : Device) (ds : List Device),
      mode ≠ DETECT → dev.openOk = true →
      is_supported dev.devinfo = false →
      (runLoop mode brightness amount false silent first
          (dev :: ds)).exitCode = 2 ∧
      (runLoop mode brightness amount false silent first
          (dev :: ds)).steps.map (fun s => s.trace) =
        [[Directive.getVersion, Directive.getDevInfo]]) ∧
    (∀ (mode : Nat) (brightness amount : Int) (dev : Device),
      mode ≠ DETECT → dev.openOk = true →
      is_supported dev.devinfo = false →
      is_usb_monitor dev.devinfo dev.application = false →
      (processDevice mode brightness amount true dev).trace =
        Directive.getVersion :: Directive.getDevInfo ::
          (monitor_scan dev.application 0 dev.devinfo.num_applications).1 ∧
      (processDevice mode brightness amount true dev).outcome =
        Outcome.cont false) ∧
    (∀ (mode : Nat) (brightness amount : Int) (dev : Device),
      mode ≠ DETECT → dev.openOk = true →
      is_supported dev.devinfo = false →
      is_usb_monitor dev.devinfo dev.application = true →
      dev.initOk = false →
      (processDevice mode brightness amount true dev).outcome =
        Outcome.exitWith 1) := by
  refine ⟨?_, ?_, ?_⟩
  · intro mode b a silent first dev ds hmode ho hs
    have hg : (mode == DETECT) = false := beq_eq_false_iff_ne.mpr hmode
    have hpd : processDevice mode b a false dev =
        { trace := [Directive.getVersion, Directive.getDevInfo],
          outs := [Out.unsupportedLine],
          outcome := Outcome.exitWith 2 } := by
      simp [processDevice, ho, hg, hs]
    simp [runLoop, hpd]
  · intro mode b a dev hmode ho hs hmon
    have hg : (mode == DETECT) = false := beq_eq_false_iff_ne.mpr hmode
    have hscan : (monitor_scan dev.application 0
        dev.devinfo.num_applications).2 = false := hmon
    constructor
    · simp [processDevice, ho, hg, hs, hscan]
    · simp [processDevice, ho, hg, hs, hscan]
  · intro mode b a dev hmode ho hs hmon hinit
    have hg : (mode == DETECT) = false := beq_eq_false_iff_ne.mpr hmode
    have hscan : (monitor_scan dev.application 0
        dev.devinfo.num_applications).2 = true := hmon
    simp [processDevice, ho, hg, hs, hscan, hinit]

/-- C5 witness: a GET run whose first candidate is the unsupported fixture
(followed by a supported one) stops at once with exit code 2 and only the
two identity queries issued; with force, the unsupported non-monitor
fixture is probed and skipped, and the unsupported monitor fixture with
failing init proceeds past classification and exits 1. -/
theorem unsupported_without_force_policy_witness :
    ((runLoop GET 0 0 false false true [unsupDevice, okDevice]).exitCode = 2 ∧
      (runLoop GET 0 0 false false true
          [unsupDevice, okDevice]).steps.map (fun s => s.trace) =
        [[Directive.getVersion, Directive.getDevInfo]]) ∧
    ((processDevice GET 0 0 true unsupNonMonDevice).trace =
        Directive.getVersion :: Directive.getDevInfo ::
          (monitor_scan unsupNonMonDevice.application 0
            unsupNonMonDevice.devinfo.num_applications).1 ∧
      (processDevice GET 0 0 true unsupNonMonDevice).outcome =
        Outcome.cont false) ∧
    (processDevice GET 0 0 true unsupInitFailDevice).outcome =
      Outcome.exitWith 1 := by
  have h := unsupported_without_force_policy
  refine ⟨h.1 GET 0 0 false true unsupDevice [okDevice] (by decide) rfl
      (by decide), ?_, ?_⟩
  · exact h.2.1 GET 0 0 unsupNonMonDevice (by decide) rfl (by decide)
      (by decide)
  · exact h.2.2 GET 0 0 unsupInitFailDevice (by decide) rfl (by decide)
      (by decide) rfl

/-- Characterization of the version-line prints (non-silent run): the i-th
processed candidate gets the version line exactly when the `first_device`
flag was set on entry to the loop, no earlier candidate completed a full
loop body, and this candidate's open succeeded. -/
theorem vprints_characterization (mode : Nat) (brightness amount : Int)
    (force : Bool) :
    ∀ (devs : List Device) (first : Bool) (i : Nat),
      ((runLoop mode brightness amount force false first devs).vprints.get? i
          = some true) ↔
        (first = true ∧
          (∃ dev, devs.get? i = some dev ∧ dev.openOk = true) ∧
          ∀ j < i, ∀ e, devs.get? j = some e →
            (processDevice mode brightness amount force e).outcome =
              Outcome.cont false) := by
  intro devs
  induction devs with
  | nil =>
    intro first i
    simp [runLoop]
  | cons d ds ih =>
    intro first i
    cases hout : (processDevice mode brightness amount force d).outcome with
    | exitWith c =>
      simp only [runLoop, hout]
      cases i with
      | zero =>
        simp only [List.get?_cons_zero, Option.some_inj, Bool.not_false,
          Bool.true_and]
        constructor
        · intro h
          rw [Bool.and_eq_true] at h
          exact ⟨h.1, ⟨d, rfl, h.2⟩, by intro j hj; omega⟩
        · rintro ⟨hf, ⟨dev, hdev, hopen⟩, -⟩
          subst hdev
          rw [hf, hopen]
          rfl
      | succ i =>
        simp only [List.get?_cons_succ, List.get?_nil]
        constructor
        · intro h
          exact absurd h (by simp)
        · rintro ⟨-, -, hall⟩
          have h0 := hall 0 (Nat.succ_pos i) d rfl
          rw [hout] at h0
          simp at h0
    | cont full =>
      simp only [runLoop, hout]
      cases i with
      | zero =>
        simp only [List.get?_cons_zero, Option.some_inj, Bool.not_false,
          Bool.true_and]
        constructor
        · intro h
          rw [Bool.and_eq_true] at h
          exact ⟨h.1, ⟨d, rfl, h.2⟩, by intro j hj; omega⟩
        · rintro ⟨hf, ⟨dev, hdev, hopen⟩, -⟩
          subst hdev
          rw [hf, hopen]
          rfl
      | succ i =>
        simp only [List.get?_cons_succ]
        rw [ih (first && !full) i]
        constructor
        · rintro ⟨hff, hdev, hall⟩
          rw [Bool.and_eq_true] at hff
          obtain ⟨hf, hnf⟩ := hff
          rw [Bool.not_eq_true'] at hnf
          refine ⟨hf, hdev, ?_⟩
          intro j hj e he
          cases j with
          | zero =>
            rw [List.get?_cons_zero, Option.some_inj] at he
            subst he
            rw [hout, hnf]
          | succ j =>
            exact hall j (by omega) e (by simpa using he)
        · rintro ⟨hf, hdev, hall⟩
          have h0 := hall 0 (Nat.succ_pos i) d rfl
          rw [hout] at h0
          have hfull : full = false := by
            cases full
            · rfl
            · exact absurd h0 (by simp)
          subst hfull
          refine ⟨by rw [hf]; rfl, hdev, ?_⟩
          intro j hj e he
          exact hall (j + 1) (by omega) e (by simpa using he)

/-- In a silent run the version line is never printed for any candidate. -/
theorem vprints_silent (mode : Nat) (brightness amount : Int)
    (force : Bool) :
    ∀ (devs : List Device) (first : Bool) (i : Nat),
      (runLoop mode brightness amount force true first devs).vprints.get? i ≠
        some true := by
  intro devs
  induction devs with
  | nil =>
    intro first i
    simp [runLoop]
  | cons d ds ih =>
    intro first i
    cases hout : (processDevice mode brightness amount force d).outcome with
    | exitWith c =>
      simp only [runLoop, hout]
      cases i with
      | zero => simp
      | succ i => simp
    | cont full =>
      simp only [runLoop, hout]
      cases i with
      | zero => simp
      | succ i =>
        simp only [List.get?_cons_succ]
        exact ih (first && !full) i

/-- C7 corrected/amended: unless silent output is requested, the driver
version line is printed for the i-th candidate exactly when that candidate
opens successfully and no earlier candidate completed a full loop body
(only a fully processed device clears the `first_device` flag; candidates
skipped by `continue` — open failures, detect-mode iterations, non-monitor
skips — leave it set, so the line can be printed for several successfully
opened candidates, not exactly once); with silent output it is never
printed. -/
theorem version_line_policy (mode : Nat) (brightness amount : Int)
    (force : Bool) (devs : List Device) (first : Bool) (i : Nat) :
    (((runLoop mode brightness amount force false true devs).vprints.get? i
        = some true) ↔
      ((∃ dev, devs.get? i = some dev ∧ dev.openOk = true) ∧
        ∀ j < i, ∀ e, devs.get? j = some e →
          (processDevice mode brightness amount force e).outcome =
            Outcome.cont false)) ∧
    (runLoop mode brightness amount force true first devs).vprints.get? i ≠
      some true := by
  constructor
  · rw [vprints_characterization mode brightness amount force devs true i]
    constructor
    · rintro ⟨-, h⟩; exact h
    · intro h; exact ⟨rfl, h⟩
  · exact vprints_silent mode brightness amount force devs first i

/-- C7 counterexample: a non-silent detect run over two successfully
opening candidates prints the driver version line twice — not exactly once,
and not only for the first successfully opened device. -/
theorem version_line_printed_twice :
    (runLoop DETECT 0 0 false false true [okDevice, okDevice]).vprints =
      [true, true] ∧
    (runLoop DETECT 0 0 false false true
        [okDevice, okDevice]).vprints.count true ≠ 1 := by
  constructor
  · rfl
  · decide

/-- C7 witness: by the amended characterization, the second candidate of the
two-device detect run does get the version line (its predecessor never
completed a full loop body), and a silent run prints none. -/
theorem version_line_policy_witness :
    (runLoop DETECT 0 0 false false true
        [okDevice, okDevice]).vprints.get? 1 = some true ∧
    (runLoop DETECT 0 0 false true true [okDevice]).vprints.get? 0 ≠
      some true := by
  have h := version_line_policy DETECT 0 0 false [okDevice, okDevice] true 1
  refine ⟨h.1.mpr ⟨⟨okDevice, rfl, rfl⟩, ?_⟩,
    (version_line_policy DETECT 0 0 false [okDevice] true 0).2⟩
  intro j hj e he
  have hj0 : j = 0 := by omega
  subst hj0
  simp only [List.get?_cons_zero, Option.some_inj] at he
  subst he
  decide

/-- C8: open failure and non-monitor classification are per-device
recoverable — each emits its diagnostic, ends the iteration in a `continue`,
and the batch goes on with the remaining candidates unchanged (same steps
and same final exit code as a run without the skipped candidate) — whereas
any iteration that ends in an `exit` (as every usage/report transaction-step
failure does, cf. the exit-code scheme) terminates the whole process: the
run stops with exactly that one step processed and that exit code, the
remaining candidates untouched. -/
theorem recoverable_vs_fatal :
    (∀ (mode : Nat) (brightness amount : Int) (force silent first : Bool)
        (dev : Device) (ds : List Device),
      dev.openOk = false →
      (processDevice mode brightness amount force dev).outcome =
          Outcome.cont false ∧
      Out.openError ∈ (processDevice mode brightness amount force dev).outs ∧
      (runLoop mode brightness amount force silent first (dev :: ds)).steps =
        processDevice mode brightness amount force dev ::
          (runLoop mode brightness amount force silent first ds).steps ∧
      (runLoop mode brightness amount force silent first
          (dev :: ds)).exitCode =
        (runLoop mode brightness amount force silent first ds).exitCode) ∧
    (∀ (mode : Nat) (brightness amount : Int) (force silent first : Bool)
        (dev : Device) (ds : List Device),
      mode ≠ DETECT → dev.openOk = true →
      (is_supported dev.devinfo = true ∨ force = true) →
      is_usb_monitor dev.devinfo dev.application = false →
      (processDevice mode brightness amount force dev).outcome =
          Outcome.cont false ∧
      Out.notMonitor ∈ (processDevice mode brightness amount force dev).outs ∧
      (runLoop mode brightness amount force silent first (dev :: ds)).steps =
        processDevice mode brightness amount force dev ::
          (runLoop mode brightness amount force silent first ds).steps ∧
      (runLoop mode brightness amount force silent first
          (dev :: ds)).exitCode =
        (runLoop mode brightness amount force silent first ds).exitCode) ∧
    (∀ (mode : Nat) (brightness amount : Int) (force silent first : Bool)
        (dev : Device) (ds : List Device) (c : Nat),
      (processDevice mode brightness amount force dev).outcome =
        Outcome.exitWith c →
      (runLoop mode brightness amount force silent first
          (dev :: ds)).steps.length = 1 ∧
      (runLoop mode brightness amount force silent first
          (dev :: ds)).exitCode = c) := by
  refine ⟨?_, ?_, ?_⟩
  · intro mode b a force silent first dev ds ho
    have hout : (processDevice mode b a force dev).outcome =
        Outcome.cont false := by
      simp [processDevice, ho]
    refine ⟨hout, ?_, ?_, ?_⟩
    · simp [processDevice, ho]
    · simp [runLoop, hout]
    · simp [runLoop, hout]
  · intro mode b a force silent first dev ds hmode ho hsup hmon
    have hg : (mode == DETECT) = false := beq_eq_false_iff_ne.mpr hmode
    have hscan : (monitor_scan dev.application 0
        dev.devinfo.num_applications).2 = false := hmon
    have hout : (processDevice mode b a force dev).outcome =
        Outcome.cont false := by
      simp [processDevice, ho, hg, support_gate dev force hsup, hscan]
    refine ⟨hout, ?_, ?_, ?_⟩
    · simp [processDevice, ho, hg, support_gate dev force hsup, hscan]
    · simp [runLoop, hout]
    · simp [runLoop, hout]
  · intro mode b a force silent first dev ds c hout
    constructor
    · simp [runLoop, hout]
    · simp [runLoop, hout]

/-- C8 witness: the closed fixture is skipped and the batch completes with
exit code 0; the supported non-monitor fixture is skipped with its
diagnostic; the get-usage-failure fixture ends the whole run at once with
exit code 2 even though another candidate follows. -/
theorem recoverable_vs_fatal_witness :
    ((processDevice GET 0 0 false closedDevice).outcome =
        Outcome.cont false ∧
      Out.openError ∈ (processDevice GET 0 0 false closedDevice).outs ∧
      (runLoop GET 0 0 false false true [closedDevice, okDevice]).steps =
        processDevice GET 0 0 false closedDevice ::
          (runLoop GET 0 0 false false true [okDevice]).steps ∧
      (runLoop GET 0 0 false false true
          [closedDevice, okDevice]).exitCode =
        (runLoop GET 0 0 false false true [okDevice]).exitCode) ∧
    ((processDevice GET 0 0 false nonMonDevice).outcome =
        Outcome.cont false ∧
      Out.notMonitor ∈ (processDevice GET 0 0 false nonMonDevice).outs) ∧
    ((runLoop GET 0 0 false false true
        [getUsageFailDevice, okDevice]).steps.length = 1 ∧
      (runLoop GET 0 0 false false true
          [getUsageFailDevice, okDevice]).exitCode = 2) := by
  have h := recoverable_vs_fatal
  refine ⟨h.1 GET 0 0 false false true closedDevice [okDevice] rfl, ?_, ?_⟩
  · have h2 := h.2.1 GET 0 0 false false true nonMonDevice [] (by decide)
      rfl (Or.inl (by decide)) (by decide)
    exact ⟨h2.1, h2.2.1⟩
  · exact h.2.2 GET 0 0 false false true getUsageFailDevice [okDevice] 2
      (by decide)

/-- While the mode is not `DETECT` (an invariant the argument loop
preserves, since it only ever switches to `SET` or `SETREL`), the file list
collects exactly the arguments that `number` rejects, in order; every
`number`-accepted argument is consumed instead. -/
theorem parse_params_files :
    ∀ (args : List String) (m : Nat) (b a : Int) (fs : List String),
      m ≠ DETECT →
      (parse_params m b a fs args).2.2.2 =
        fs ++ args.filter fun s => !number s := by
  intro args
  induction args with
  | nil =>
    intro m b a fs hm
    simp [parse_params]
  | cons arg rest ih =>
    intro m b a fs hm
    have hg : (m == DETECT) = false := beq_eq_false_iff_ne.mpr hm
    simp only [parse_params]
    by_cases hn : number arg = true
    · rw [if_pos (show (!(m == DETECT) && number arg) = true by
        simp [hg, hn])]
      by_cases hh : (arg.data.head? == some '+' ||
          arg.data.head? == some '-') = true
      · rw [if_pos hh, ih SETREL b (atoi arg) fs (by decide)]
        simp [List.filter_cons_of_neg, hn]
      · rw [if_neg hh, ih SET (atoi arg) a fs (by decide)]
        simp [List.filter_cons_of_neg, hn]
    · rw [if_neg (show ¬ (!(m == DETECT) && number arg) = true by
        simp [hg, hn])]
      rw [Bool.not_eq_true] at hn
      rw [ih m b a (fs ++ [arg]) hm]
      simp [List.filter_cons, hn]

/-- While the mode is not `DETECT`, the final mode and the matching value
slot are decided by the last `number`-accepted argument: if there is none,
mode, brightness and amount keep their incoming values; a sign-prefixed last
one yields `SETREL` with `amount = atoi` of it; any other last one yields
`SET` with `brightness = atoi` of it. -/
theorem parse_params_mode :
    ∀ (args : List String) (m : Nat) (b a : Int) (fs : List String),
      m ≠ DETECT →
      (((args.filter number).getLast? = none →
        (parse_params m b a fs args).1 = m ∧
        (parse_params m b a fs args).2.1 = b ∧
        (parse_params m b a fs args).2.2.1 = a) ∧
      (∀ ln, (args.filter number).getLast? = some ln →
        ((ln.data.head? == some '+' || ln.data.head? == some '-') = true →
          (parse_params m b a fs args).1 = SETREL ∧
          (parse_params m b a fs args).2.2.1 = atoi ln) ∧
        ((ln.data.head? == some '+' || ln.data.head? == some '-') = false →
          (parse_params m b a fs args).1 = SET ∧
          (parse_params m b a fs args).2.1 = atoi ln))) := by
  intro args
  induction args with
  | nil =>
    intro m b a fs hm
    refine ⟨fun _ => ⟨rfl, rfl, rfl⟩, fun ln hln => ?_⟩
    simp at hln
  | cons arg rest ih =>
    intro m b a fs hm
    have hg : (m == DETECT) = false := beq_eq_false_iff_ne.mpr hm
    simp only [parse_params]
    by_cases hn : number arg = true
    · rw [if_pos (show (!(m == DETECT) && number arg) = true by
        simp [hg, hn])]
      have hfc : (arg :: rest).filter number = arg :: rest.filter number :=
        List.filter_cons_of_pos hn
      by_cases hh : (arg.data.head? == some '+' ||
          arg.data.head? == some '-') = true
      · rw [if_pos hh]
        have h := ih SETREL b (atoi arg) fs (by decide)
        constructor
        · intro hq
          rw [hfc] at hq
          cases hfl : rest.filter number with
          | nil => rw [hfl] at hq; simp at hq
          | cons x xs => rw [hfl, List.getLast?_cons_cons] at hq; simp at hq
        · intro ln hln
          rw [hfc] at hln
          cases hfl : rest.filter number with
          | nil =>
            rw [hfl, List.getLast?_singleton, Option.some_inj] at hln
            subst hln
            refine ⟨fun _ => ?_, fun hc => absurd hh (by rw [hc]; simp)⟩
            have h0 := (h.1 (by rw [hfl]; rfl))
            exact ⟨h0.1, h0.2.2⟩
          | cons x xs =>
            rw [hfl, List.getLast?_cons_cons] at hln
            exact h.2 ln (by rw [hfl]; exact hln)
      · rw [if_neg hh]
        rw [Bool.not_eq_true] at hh
        have h := ih SET (atoi arg) a fs (by decide)
        constructor
        · intro hq
          rw [hfc] at hq
          cases hfl : rest.filter number with
          | nil => rw [hfl] at hq; simp at hq
          | cons x xs => rw [hfl, List.getLast?_cons_cons] at hq; simp at hq
        · intro ln hln
          rw [hfc] at hln
          cases hfl : rest.filter number with
          | nil =>
            rw [hfl, List.getLast?_singleton, Option.some_inj] at hln
            subst hln
            refine ⟨fun hc => absurd hc (by rw [hh]; simp), fun _ => ?_⟩
            have h0 := (h.1 (by rw [hfl]; rfl))
            exact ⟨h0.1, h0.2.1⟩
          | cons x xs =>
            rw [hfl, List.getLast?_cons_cons] at hln
            exact h.2 ln (by rw [hfl]; exact hln)
    · rw [if_neg (show ¬ (!(m == DETECT) && number arg) = true by
        simp [hg, hn])]
      rw [Bool.not_eq_true] at hn
      have hfc : (arg :: rest).filter number = rest.filter number :=
        List.filter_cons_of_neg (by rw [hn]; simp)
      rw [hfc]
      exact ih m b a (fs ++ [arg]) hm

/-- C10: when not starting in detect mode, every positional argument whose
first character is a digit, a plus or a minus is consumed as the brightness
specifier and never reaches the device-path list (the remaining paths are
exactly the `number`-rejected arguments, in order); if several such
arguments occur, the last one alone decides the operation mode and its
value slot; and since the classification looks only at the first character,
the argument "-x" is consumed as a relative delta of `atoi "-x" = 0`. -/
theorem brightness_argument_classification (args : List String) :
    (parse_params GET 0 0 [] args).2.2.2 =
      args.filter (fun s => !number s) ∧
    ((args.filter number).getLast? = none →
      (parse_params GET 0 0 [] args).1 = GET ∧
      (parse_params GET 0 0 [] args).2.1 = 0 ∧
      (parse_params GET 0 0 [] args).2.2.1 = 0) ∧
    (∀ ln, (args.filter number).getLast? = some ln →
      ((ln.data.head? == some '+' || ln.data.head? == some '-') = true →
        (parse_params GET 0 0 [] args).1 = SETREL ∧
        (parse_params GET 0 0 [] args).2.2.1 = atoi ln) ∧
      ((ln.data.head? == some '+' || ln.data.head? == some '-') = false →
        (parse_params GET 0 0 [] args).1 = SET ∧
        (parse_params GET 0 0 [] args).2.1 = atoi ln)) ∧
    parse_params GET 0 0 [] ["-x"] = (SETREL, 0, 0, []) ∧ atoi "-x" = 0 := by
  have h := parse_params_mode args GET 0 0 [] (by decide)
  refine ⟨?_, h.1, h.2, by decide, by decide⟩
  simpa using parse_params_files args GET 0 0 [] (by decide)

/-- C10 witness: on the argument vector ["5", "/dev/x", "+7"] the path list
is just "/dev/x", and the last numeric argument "+7" puts the run in
relative mode with delta 7. -/
theorem brightness_argument_classification_witness :
    (parse_params GET 0 0 [] ["5", "/dev/x", "+7"]).2.2.2 = ["/dev/x"] ∧
    (parse_params GET 0 0 [] ["5", "/dev/x", "+7"]).1 = SETREL ∧
    (parse_params GET 0 0 [] ["5", "/dev/x", "+7"]).2.2.1 = atoi "+7" ∧
    atoi "+7" = 7 := by
  have h := brightness_argument_classification ["5", "/dev/x", "+7"]
  have h2 := (h.2.2.1 "+7" (by decide)).1 (by decide)
  exact ⟨by rw [h.1]; decide, h2.1, h2.2, by decide⟩
